import Mathlib

/-!
Verification of the TMS offer/response workflow: a shallow embedding of
the tendering service (`tendering.service.ts`), the dispatch service
(`dispatch.service.ts`) and the inbound SMS webhook controller
(`webhooks.controller.ts`), together with theorems settling the
specification claims about them.

Dates are modelled as natural numbers (milliseconds since epoch); each
service call receives the current clock `now` explicitly, standing for
the `new Date()` calls in the source.  A database transaction is a pure
function `DB → Except Err DB`: an `Except.error` result models a thrown
exception, whose enclosing transaction rolls back (the database is
returned unchanged by `runTx`).
-/

namespace TMS

/-- `TenderStatus` enum of `load-tender.entity.ts`. -/
inductive TenderStatus where
  | OFFERED
  | ACCEPTED
  | REJECTED
  | EXPIRED
  | CANCELLED
  | WITHDRAWN
  deriving DecidableEq, Repr

/-- `ShipmentStatus` enum of `shipment.entity.ts`.  Note: the enum has no
DISPATCHED and no CONFIRMED member. -/
inductive ShipmentStatus where
  | QUOTE
  | TENDERED
  | BOOKED
  | IN_TRANSIT
  | DELIVERED
  | CANCELLED
  deriving DecidableEq, Repr

/-- `DispatchStatus` enum of `dispatch-assignment.entity.ts`. -/
inductive DispatchStatus where
  | DISPATCHED
  | CONFIRMED
  | REJECTED
  | COMPLETED
  | CANCELLED
  deriving DecidableEq, Repr

/-- `DriverStatus` enum of `driver.entity.ts`. -/
inductive DriverStatus where
  | ACTIVE
  | INACTIVE
  | ON_LOAD
  | OFF_DUTY
  | SICK
  | VACATION
  deriving DecidableEq, Repr

/-- One entry of a tender's `auditTrail` jsonb array:
`\x7baction, timestamp, userId, notes\x7d`. -/
structure AuditEntry where
  action : String
  timestamp : Nat
  userId : Option String
  notes : Option String
  deriving DecidableEq, Repr

/-- `LoadTenderEntity` (the columns the workflow reads or writes). -/
structure LoadTenderEntity where
  id : String
  shipmentId : String
  carrierId : String
  status : TenderStatus
  offerAmount : Int := 0
  offerExpiryDate : Option Nat := none
  responseDate : Option Nat := none
  responseNotes : Option String := none
  acceptedDate : Option Nat := none
  acceptedById : Option String := none
  rejectedDate : Option Nat := none
  rejectedById : Option String := none
  cancelledDate : Option Nat := none
  cancelledById : Option String := none
  cancellationReason : Option String := none
  auditTrail : List AuditEntry := []
  deriving DecidableEq, Repr

/-- `ShipmentEntity` (the columns the workflow reads or writes). -/
structure ShipmentEntity where
  id : String
  tenantId : String
  status : ShipmentStatus
  carrierId : Option String := none
  assignedDriverId : Option String := none
  updatedById : Option String := none
  deriving DecidableEq, Repr

/-- `DriverEntity` (the columns the workflow reads or writes).
`medicalCertExpiration` models `medicalCertificate?.expirationDate`
inside the `medicalCertificate` jsonb blob. -/
structure DriverEntity where
  id : String
  tenantId : String
  phoneNumber : String
  isActive : Bool
  status : DriverStatus
  licenseExpirationDate : Option Nat := none
  medicalCertExpiration : Option Nat := none
  completedLoads : Nat := 0
  lastDispatchDate : Option Nat := none
  deriving DecidableEq, Repr

/-- One entry of an assignment's `communicationLog` jsonb array.  The
source field `type` is a Lean keyword and is embedded as `entryType`. -/
structure CommLogEntry where
  entryType : String
  timestamp : Nat
  recipient : Option String
  response : Option String
  processedBy : Option String
  status : Option String
  deriving DecidableEq, Repr

/-- `DispatchAssignmentEntity` (the columns the workflow reads or writes). -/
structure DispatchAssignmentEntity where
  id : String
  tenantId : String
  shipmentId : String
  driverId : String
  status : DispatchStatus
  dispatchType : String := "PRIMARY"
  sentAt : Option Nat := none
  confirmedAt : Option Nat := none
  rejectedAt : Option Nat := none
  communicationLog : List CommLogEntry := []
  deriving DecidableEq, Repr

/-- The relational store visible to the workflow. -/
structure DB where
  shipments : List ShipmentEntity
  tenders : List LoadTenderEntity
  drivers : List DriverEntity
  assignments : List DispatchAssignmentEntity
  deriving DecidableEq, Repr

/-- The authenticated `User` context (`id` and `companyId` are the only
fields the workflow reads). -/
structure UserCtx where
  id : String
  companyId : String
  deriving DecidableEq, Repr

/-- The distinct exceptions thrown by the embedded services, one
constructor per throw site. -/
inductive Err where
  | tenderNotFound
  | tenderNotOffered
  | tenderExpired
  | tenderAlreadyCancelledOrExpired
  | shipmentNotFound
  | shipmentWrongStatus
  | noAcceptedTender
  | driverNotFound
  | driverNotActive
  | driverNotAvailable
  | driverAlreadyAssigned
  | assignmentNotFound
  | assignmentNotDispatched
  | invalidResponseCode
  deriving DecidableEq, Repr

/-- `repository.update(Entity, id, payload)` on tenders: every row whose
primary key matches is rewritten. -/
def updateTenderById (ts : List LoadTenderEntity) (tid : String)
    (f : LoadTenderEntity → LoadTenderEntity) : List LoadTenderEntity :=
  ts.map fun t => if t.id = tid then f t else t

/-- `repository.update(Entity, id, payload)` on shipments. -/
def updateShipmentById (ss : List ShipmentEntity) (sid : String)
    (f : ShipmentEntity → ShipmentEntity) : List ShipmentEntity :=
  ss.map fun s => if s.id = sid then f s else s

/-- `repository.update(Entity, id, payload)` on drivers. -/
def updateDriverById (ds : List DriverEntity) (did : String)
    (f : DriverEntity → DriverEntity) : List DriverEntity :=
  ds.map fun d => if d.id = did then f d else d

/-- `repository.update(Entity, id, payload)` on dispatch assignments. -/
def updateAssignmentById (as' : List DispatchAssignmentEntity) (aid : String)
    (f : DispatchAssignmentEntity → DispatchAssignmentEntity) :
    List DispatchAssignmentEntity :=
  as'.map fun a => if a.id = aid then f a else a

/-- Transaction semantics: an exception rolls the store back. -/
def runTx (r : Except Err DB) (db : DB) : DB :=
  match r with
  | .ok db' => db'
  | .error _ => db

/-- `findTenderForResponse` of `tendering.service.ts`: look the tender up
by id and carrier. -/
def findTenderForResponse (db : DB) (tenderId carrierId : String) :
    Option LoadTenderEntity :=
  db.tenders.find? fun t => t.id == tenderId && t.carrierId == carrierId

/-- The payload of the bulk cascade update: note that `auditTrail` is
set to a fresh one-element array (the source does not spread the
existing trail here, unlike the per-tender response paths). -/
def cascadeCancel (now : Nat) (t : LoadTenderEntity) : LoadTenderEntity :=
  { t with
      status := TenderStatus.CANCELLED
      cancelledDate := some now
      cancellationReason := some "Another tender was accepted for this shipment"
      auditTrail := [⟨"AUTO_CANCELLED", now, none,
        some "Cancelled due to another tender being accepted"⟩] }

/-- `rejectOtherTenders` of `tendering.service.ts`: a single bulk
`update` with criteria `\x7bshipmentId, status: OFFERED\x7d`. -/
def rejectOtherTenders (db : DB) (shipmentId : String) (now : Nat) : DB :=
  { db with tenders := db.tenders.map fun t =>
      if t.shipmentId = shipmentId ∧ t.status = TenderStatus.OFFERED then
        cascadeCancel now t
      else t }

/-- The audit entry acceptance appends. -/
def acceptedEntry (now : Nat) (uid : String) : AuditEntry :=
  ⟨"ACCEPTED", now, some uid, some "Tender accepted by carrier"⟩

/-- The per-row payload `acceptTender` writes on the accepted tender
(the spread audit trail comes from the fetched `tender`). -/
def acceptPayload (tender : LoadTenderEntity) (now : Nat) (uid : String)
    (x : LoadTenderEntity) : LoadTenderEntity :=
  { x with
      status := TenderStatus.ACCEPTED
      responseDate := some now
      acceptedDate := some now
      acceptedById := some uid
      auditTrail := tender.auditTrail ++ [acceptedEntry now uid] }

/-- `acceptTender` of `tendering.service.ts`.  The expiry guard
`new Date() > tender.offerExpiryDate` coerces a null expiry to 0. -/
def acceptTender (db : DB) (now : Nat) (tenderId carrierId : String)
    (user : UserCtx) : Except Err DB :=
  match findTenderForResponse db tenderId carrierId with
  | none => .error .tenderNotFound
  | some tender =>
    if tender.status ≠ TenderStatus.OFFERED then .error .tenderNotOffered
    else if now > tender.offerExpiryDate.getD 0 then .error .tenderExpired
    else
      let db1 : DB := { db with
        tenders := updateTenderById db.tenders tenderId (acceptPayload tender now user.id) }
      let db2 : DB := { db1 with shipments := updateShipmentById db1.shipments tender.shipmentId fun s =>
        { s with
            status := ShipmentStatus.BOOKED
            carrierId := some tender.carrierId
            updatedById := some user.id } }
      .ok (rejectOtherTenders db2 tender.shipmentId now)

/-- `rejectTender` of `tendering.service.ts`. -/
def rejectTender (db : DB) (now : Nat) (tenderId carrierId : String)
    (reason : Option String) (user : UserCtx) : Except Err DB :=
  match findTenderForResponse db tenderId carrierId with
  | none => .error .tenderNotFound
  | some tender =>
    if tender.status ≠ TenderStatus.OFFERED then .error .tenderNotOffered
    else
      .ok { db with tenders := updateTenderById db.tenders tenderId fun t =>
        { t with
            status := TenderStatus.REJECTED
            responseDate := some now
            rejectedDate := some now
            rejectedById := some user.id
            responseNotes := reason
            auditTrail := tender.auditTrail ++
              [⟨"REJECTED", now, some user.id, some (reason.getD "No reason provided")⟩] } }

/-- `cancelTender` of `tendering.service.ts`: refuses only CANCELLED and
EXPIRED tenders; an ACCEPTED tender is cancelled after reverting the
shipment to QUOTE, a REJECTED tender is cancelled directly. -/
def cancelTender (db : DB) (now : Nat) (tenderId : String) (reason : String)
    (user : UserCtx) : Except Err DB :=
  match db.tenders.find? (fun t => t.id == tenderId) with
  | none => .error .tenderNotFound
  | some tender =>
    if tender.status = TenderStatus.CANCELLED ∨ tender.status = TenderStatus.EXPIRED then
      .error .tenderAlreadyCancelledOrExpired
    else
      let db1 : DB :=
        if tender.status = TenderStatus.ACCEPTED then
          { db with shipments := updateShipmentById db.shipments tender.shipmentId fun s =>
            { s with
                status := ShipmentStatus.QUOTE
                carrierId := none
                updatedById := some user.id } }
        else db
      .ok { db1 with tenders := updateTenderById db1.tenders tenderId fun t =>
        { t with
            status := TenderStatus.CANCELLED
            cancelledDate := some now
            cancelledById := some user.id
            cancellationReason := some reason
            auditTrail := tender.auditTrail ++
              [⟨"CANCELLED", now, some user.id, some reason⟩] } }

/-- `isDriverAvailable` of `dispatch.service.ts`: status gate, CDL expiry
gate (skipped when the date is null), medical-certificate gate (skipped
when absent). -/
def isDriverAvailable (driver : DriverEntity) (now : Nat) : Bool :=
  if driver.status ≠ DriverStatus.ACTIVE ∧ driver.status ≠ DriverStatus.OFF_DUTY then
    false
  else if (match driver.licenseExpirationDate with
           | some d => decide (d < now)
           | none => false) then
    false
  else if (match driver.medicalCertExpiration with
           | some d => decide (d < now)
           | none => false) then
    false
  else true

/-- `assignDriver` of `dispatch.service.ts`.  `newId` stands for the
generated primary key of the inserted assignment.  The source writes
`status: ShipmentStatus.DISPATCHED` on the shipment, but the
`ShipmentStatus` enum has no such member, so the value is `undefined`
and TypeORM drops the column from the update: the shipment's status is
left unchanged here. -/
def assignDriver (db : DB) (now : Nat) (shipmentId driverId : String)
    (dispatchType : String) (newId : String) (user : UserCtx) : Except Err DB :=
  match db.shipments.find? (fun s => s.id == shipmentId && s.tenantId == user.companyId) with
  | none => .error .shipmentNotFound
  | some shipment =>
    if shipment.status ≠ ShipmentStatus.BOOKED ∧ shipment.status ≠ ShipmentStatus.TENDERED then
      .error .shipmentWrongStatus
    else if (db.tenders.find? fun t =>
        t.shipmentId == shipmentId && t.status == TenderStatus.ACCEPTED).isNone then
      .error .noAcceptedTender
    else
      match db.drivers.find? (fun d => d.id == driverId) with
      | none => .error .driverNotFound
      | some driver =>
        if driver.isActive = false then .error .driverNotActive
        else if isDriverAvailable driver now = false then .error .driverNotAvailable
        else if (db.assignments.find? fun a =>
            a.shipmentId == shipmentId && a.driverId == driverId &&
            (a.status == DispatchStatus.DISPATCHED || a.status == DispatchStatus.CONFIRMED)).isSome then
          .error .driverAlreadyAssigned
        else
          let assignment : DispatchAssignmentEntity :=
            { id := newId
              tenantId := user.companyId
              shipmentId := shipmentId
              driverId := driverId
              status := DispatchStatus.DISPATCHED
              dispatchType := dispatchType
              sentAt := some now
              communicationLog := [⟨"SMS_SENT", now, some driver.phoneNumber, none, none,
                some "pending"⟩] }
          let db1 : DB := { db with assignments := db.assignments ++ [assignment] }
          let db2 : DB := { db1 with shipments := updateShipmentById db1.shipments shipmentId fun s =>
            { s with assignedDriverId := some driverId, updatedById := some user.id } }
          .ok { db2 with drivers := updateDriverById db2.drivers driverId fun d =>
            { d with
                status := DriverStatus.ON_LOAD
                lastDispatchDate := some now
                completedLoads := driver.completedLoads + 1 } }

/-- `processDriverResponse` of `dispatch.service.ts`.  The `driver`
relation loaded with the assignment is the current driver row; a missing
row is modelled as `driverNotFound` (the source would fail on the null
relation). -/
def processDriverResponse (db : DB) (now : Nat) (driverId : String)
    (response : String) (assignmentId : String) (user : UserCtx) : Except Err DB :=
  match db.assignments.find? (fun a => a.id == assignmentId && a.driverId == driverId) with
  | none => .error .assignmentNotFound
  | some assignment =>
    if assignment.status ≠ DispatchStatus.DISPATCHED then .error .assignmentNotDispatched
    else
      match db.drivers.find? (fun d => d.id == driverId) with
      | none => .error .driverNotFound
      | some driver =>
        if response = "1" then
          let db1 : DB := { db with drivers := updateDriverById db.drivers driverId fun d =>
            { d with
                status := DriverStatus.ON_LOAD
                completedLoads := driver.completedLoads + 1 } }
          let db2 : DB := { db1 with shipments := updateShipmentById db1.shipments assignment.shipmentId fun s =>
            { s with status := ShipmentStatus.BOOKED, updatedById := some user.id } }
          .ok { db2 with assignments := updateAssignmentById db2.assignments assignmentId fun a =>
            { a with
                status := DispatchStatus.CONFIRMED
                confirmedAt := some now
                rejectedAt := none
                communicationLog := assignment.communicationLog ++
                  [⟨"SMS_RESPONSE", now, none, some response, some user.id, some "processed"⟩] } }
        else if response = "2" then
          let db1 : DB := { db with drivers := updateDriverById db.drivers driverId fun d =>
            { d with status := DriverStatus.ACTIVE } }
          let db2 : DB := { db1 with shipments := updateShipmentById db1.shipments assignment.shipmentId fun s =>
            { s with
                status := ShipmentStatus.TENDERED
                assignedDriverId := none
                updatedById := some user.id } }
          .ok { db2 with assignments := updateAssignmentById db2.assignments assignmentId fun a =>
            { a with
                status := DispatchStatus.REJECTED
                confirmedAt := none
                rejectedAt := some now
                communicationLog := assignment.communicationLog ++
                  [⟨"SMS_RESPONSE", now, none, some response, some user.id, some "processed"⟩] } }
        else .error .invalidResponseCode

/-- JS `String.prototype.toLowerCase` on one character (ASCII range,
which is all the parser's keywords use). -/
def lowerChar (c : Char) : Char :=
  if 'A' ≤ c ∧ c ≤ 'Z' then Char.ofNat (c.toNat + 32) else c

/-- JS `String.prototype.toLowerCase`. -/
def strLower (s : String) : String :=
  ⟨s.toList.map lowerChar⟩

/-- JS whitespace as recognised by `String.prototype.trim`. -/
def isWhite (c : Char) : Bool :=
  c = ' ' ∨ c = '\t' ∨ c = '\n' ∨ c = '\r'

/-- JS `String.prototype.trim`: strip leading and trailing whitespace. -/
def strTrim (s : String) : String :=
  ⟨((s.toList.dropWhile isWhite).reverse.dropWhile isWhite).reverse⟩

/-- Substring search on character lists: `pattern.test(body)` for an
unanchored literal pattern is containment of the pattern in the body. -/
def containsSeq (pat : List Char) : List Char → Bool
  | [] => pat.isEmpty
  | c :: rest => List.isPrefixOf pat (c :: rest) || containsSeq pat rest

/-- `body.includes(pat)` / an unanchored literal regex test. -/
def containsSub (s pat : String) : Bool :=
  containsSeq pat.toList s.toList

/-- The keyword of the source pattern `/can't/i` (apostrophe is
character 39). -/
def cantKw : String := ⟨['c', 'a', 'n', Char.ofNat 39, 't']⟩

/-- Result record of `parseSmsResponse`: the source populates only
`response` and never extracts a driver or assignment id. -/
structure ParsedSms where
  response : Option String
  driverId : Option String
  assignmentId : Option String
  deriving DecidableEq, Repr

/-- `parseSmsResponse` of `webhooks.controller.ts`: the body is trimmed
and lowercased, then run through the ordered rules.  All regexes are
case-insensitive literal patterns, so on the lowercased body they are
substring tests, except the anchored `/^1$/` and `/^2$/` which are exact
matches. -/
def parseSmsResponse (rawBody : String) : ParsedSms :=
  let body := strLower (strTrim rawBody)
  if body == "1" || containsSub body "confirm" then
    ⟨some "1", none, none⟩
  else if body == "2" || containsSub body "reject" then
    ⟨some "2", none, none⟩
  else if containsSub body "confirm" || containsSub body "accept" ||
      containsSub body "yes" || containsSub body "ok" || body == "1" ||
      containsSub body "got it" || containsSub body "on my way" then
    ⟨some "1", none, none⟩
  else if containsSub body "reject" || containsSub body "decline" ||
      containsSub body "no" || containsSub body cantKw ||
      containsSub body "cannot" || body == "2" ||
      containsSub body "not available" || containsSub body "busy" then
    ⟨some "2", none, none⟩
  else ⟨none, none, none⟩

/-- Inbound SMS webhook payload (the fields the handler reads). -/
structure SmsWebhookPayload where
  From : String
  To : String
  Body : String
  deriving DecidableEq, Repr

/-- Body of the always-200 webhook response (the fields the claims are
about). -/
structure WebhookResult where
  success : Bool
  message : String
  deriving DecidableEq, Repr

/-- `getMockUserForWebhook` of `webhooks.controller.ts`. -/
def mockWebhookUser : UserCtx :=
  ⟨"webhook-processor", "system-tenant"⟩

/-- `receiveSmsWebhook` of `webhooks.controller.ts`.  Every exception of
`processDriverResponse` is caught and reported as a failed (but HTTP 200)
result with the store rolled back.  Because `parseSmsResponse` never
yields ids, the processing branch is unreachable in the source; it is
embedded nonetheless. -/
def receiveSmsWebhook (db : DB) (now : Nat) (payload : SmsWebhookPayload) :
    DB × WebhookResult :=
  let parsed := parseSmsResponse payload.Body
  match parsed.response with
  | none => (db, ⟨false, "Unrecognized SMS response"⟩)
  | some r =>
    match parsed.driverId, parsed.assignmentId with
    | some did, some aid =>
      match processDriverResponse db now did r aid mockWebhookUser with
      | .ok db' => (db', ⟨true, "processed"⟩)
      | .error _ => (db, ⟨false, "Failed to process webhook"⟩)
    | _, _ => (db, ⟨false, "Could not process SMS response - missing IDs"⟩)

/-- The accept-keyword family named by the claim (the confirm-pattern
list of the source, minus the anchored digit rule). -/
def acceptFamily (b : String) : Bool :=
  containsSub b "confirm" || containsSub b "accept" || containsSub b "yes" ||
  containsSub b "ok" || containsSub b "got it" || containsSub b "on my way"

/-- The reject-keyword family named by the claim (the reject-pattern
list of the source, minus the anchored digit rule and minus `/cannot/`,
which is subsumed by `/no/`). -/
def rejectFamily (b : String) : Bool :=
  containsSub b "reject" || containsSub b "decline" || containsSub b "no" ||
  containsSub b cantKw || containsSub b "busy" || containsSub b "not available"

/-! ### Concrete stores used by witnesses and counterexamples -/

/-- The authenticated operator used by the concrete scenarios. -/
def opsUser : UserCtx := ⟨"U1", "TEN1"⟩

/-- First of two live tenders for shipment S1 (carrier C1, 2500). -/
def tenderT1off : LoadTenderEntity :=
  { id := "T1", shipmentId := "S1", carrierId := "C1",
    status := TenderStatus.OFFERED, offerAmount := 2500,
    offerExpiryDate := some 100,
    auditTrail := [⟨"OFFERED", 1, some "U1", some "tendered to C1"⟩] }

/-- Second of two live tenders for shipment S1 (carrier C2, 2400). -/
def tenderT2off : LoadTenderEntity :=
  { id := "T2", shipmentId := "S1", carrierId := "C2",
    status := TenderStatus.OFFERED, offerAmount := 2400,
    offerExpiryDate := some 100,
    auditTrail := [⟨"OFFERED", 2, some "U1", some "tendered to C2"⟩] }

/-- Two live tenders for one tendered shipment, as in the spec's
two-carrier scenario. -/
def twoTenderDB : DB :=
  { shipments := [{ id := "S1", tenantId := "TEN1", status := ShipmentStatus.TENDERED }]
    tenders := [tenderT1off, tenderT2off]
    drivers := []
    assignments := [] }

/-- An already-accepted (terminal) tender. -/
def tenderT1acc : LoadTenderEntity :=
  { id := "T1", shipmentId := "S1", carrierId := "C1",
    status := TenderStatus.ACCEPTED, offerAmount := 2500,
    offerExpiryDate := some 100,
    auditTrail := [⟨"OFFERED", 1, some "U1", none⟩,
                   ⟨"ACCEPTED", 2, some "U1", some "Tender accepted by carrier"⟩] }

/-- A shipment booked through an accepted tender. -/
def acceptedTenderDB : DB :=
  { shipments := [{ id := "S1", tenantId := "TEN1", status := ShipmentStatus.BOOKED,
                    carrierId := some "C1" }]
    tenders := [tenderT1acc]
    drivers := []
    assignments := [] }

/-- A still-OFFERED tender whose offer expiry lies in the past. -/
def tenderT1exp : LoadTenderEntity :=
  { id := "T1", shipmentId := "S1", carrierId := "C1",
    status := TenderStatus.OFFERED, offerAmount := 2500,
    offerExpiryDate := some 5,
    auditTrail := [⟨"OFFERED", 1, some "U1", none⟩] }

/-- A single tender whose offer expiry lies in the past. -/
def expiredTenderDB : DB :=
  { shipments := [{ id := "S1", tenantId := "TEN1", status := ShipmentStatus.TENDERED }]
    tenders := [tenderT1exp]
    drivers := []
    assignments := [] }

/-- The driver on load for the dispatched-assignment scenario. -/
def driverD1busy : DriverEntity :=
  { id := "D1", tenantId := "TEN1", phoneNumber := "+15550100",
    isActive := true, status := DriverStatus.ON_LOAD,
    licenseExpirationDate := some 1000, completedLoads := 6 }

/-- A dispatch assignment awaiting the driver's SMS response. -/
def assignA1disp : DispatchAssignmentEntity :=
  { id := "A1", tenantId := "TEN1", shipmentId := "S1", driverId := "D1",
    status := DispatchStatus.DISPATCHED, sentAt := some 10,
    communicationLog := [⟨"SMS_SENT", 10, some "+15550100", none, none,
      some "pending"⟩] }

/-- A dispatched (offered, unanswered) assignment with its driver and
shipment, plus the accepted tender that allowed the dispatch. -/
def dispatchedDB : DB :=
  { shipments := [{ id := "S1", tenantId := "TEN1", status := ShipmentStatus.BOOKED,
                    carrierId := some "C1", assignedDriverId := some "D1" }]
    tenders :=
      [{ id := "T1", shipmentId := "S1", carrierId := "C1",
         status := TenderStatus.ACCEPTED, offerAmount := 2500,
         offerExpiryDate := some 100 }]
    drivers := [driverD1busy]
    assignments := [assignA1disp] }

/-- A dispatch assignment already confirmed (terminal). -/
def assignA1conf : DispatchAssignmentEntity :=
  { id := "A1", tenantId := "TEN1", shipmentId := "S1", driverId := "D1",
    status := DispatchStatus.CONFIRMED, sentAt := some 10,
    confirmedAt := some 20 }

/-- A dispatch assignment already confirmed (terminal), as left behind by
a processed accept response. -/
def confirmedDispatchDB : DB :=
  { shipments := [{ id := "S1", tenantId := "TEN1", status := ShipmentStatus.BOOKED,
                    carrierId := some "C1", assignedDriverId := some "D1" }]
    tenders := []
    drivers :=
      [{ id := "D1", tenantId := "TEN1", phoneNumber := "+15550100",
         isActive := true, status := DriverStatus.ON_LOAD,
         licenseExpirationDate := some 1000, completedLoads := 7 }]
    assignments := [assignA1conf] }

/-- An idle, fully eligible driver with five completed loads. -/
def driverD1idle : DriverEntity :=
  { id := "D1", tenantId := "TEN1", phoneNumber := "+15550100",
    isActive := true, status := DriverStatus.ACTIVE,
    licenseExpirationDate := some 1000, completedLoads := 5 }

/-- A booked shipment with an accepted tender and an idle, fully
eligible driver: ready for dispatch-offer creation. -/
def readyDispatchDB : DB :=
  { shipments := [{ id := "S1", tenantId := "TEN1", status := ShipmentStatus.BOOKED,
                    carrierId := some "C1" }]
    tenders :=
      [{ id := "T1", shipmentId := "S1", carrierId := "C1",
         status := TenderStatus.ACCEPTED, offerAmount := 2500,
         offerExpiryDate := some 100 }]
    drivers := [driverD1idle]
    assignments := [] }

/-- The store after the dispatch offer to D1 has been created on
`readyDispatchDB`. -/
def afterAssignDB : DB :=
  runTx (assignDriver readyDispatchDB 50 "S1" "D1" "PRIMARY" "A1" opsUser) readyDispatchDB

/-- The driver D1 as stored right after the dispatch-offer creation:
on load, with the optimistically incremented load counter. -/
def driverD1onload : DriverEntity :=
  { driverD1idle with
      status := DriverStatus.ON_LOAD
      lastDispatchDate := some 50
      completedLoads := 6 }

/-- The assignment created on `readyDispatchDB` by the dispatch offer. -/
def assignA1created : DispatchAssignmentEntity :=
  { id := "A1", tenantId := "TEN1", shipmentId := "S1", driverId := "D1",
    status := DispatchStatus.DISPATCHED, sentAt := some 50,
    communicationLog := [⟨"SMS_SENT", 50, some "+15550100", none, none,
      some "pending"⟩] }

/-! ### Helper lemmas -/

theorem mem_updateTenderById {ts : List LoadTenderEntity} {tid : String}
    {f : LoadTenderEntity → LoadTenderEntity} {x : LoadTenderEntity}
    (hx : x ∈ updateTenderById ts tid f) :
    ∃ y ∈ ts, x = if y.id = tid then f y else y := by
  unfold updateTenderById at hx
  rcases List.mem_map.mp hx with ⟨y, hy, hxy⟩
  exact ⟨y, hy, hxy.symm⟩

theorem mem_updateShipmentById {ss : List ShipmentEntity} {sid : String}
    {f : ShipmentEntity → ShipmentEntity} {x : ShipmentEntity}
    (hx : x ∈ updateShipmentById ss sid f) :
    ∃ y ∈ ss, x = if y.id = sid then f y else y := by
  unfold updateShipmentById at hx
  rcases List.mem_map.mp hx with ⟨y, hy, hxy⟩
  exact ⟨y, hy, hxy.symm⟩

theorem mem_updateDriverById {ds : List DriverEntity} {did : String}
    {f : DriverEntity → DriverEntity} {x : DriverEntity}
    (hx : x ∈ updateDriverById ds did f) :
    ∃ y ∈ ds, x = if y.id = did then f y else y := by
  unfold updateDriverById at hx
  rcases List.mem_map.mp hx with ⟨y, hy, hxy⟩
  exact ⟨y, hy, hxy.symm⟩

theorem mem_updateAssignmentById {as' : List DispatchAssignmentEntity} {aid : String}
    {f : DispatchAssignmentEntity → DispatchAssignmentEntity} {x : DispatchAssignmentEntity}
    (hx : x ∈ updateAssignmentById as' aid f) :
    ∃ y ∈ as', x = if y.id = aid then f y else y := by
  unfold updateAssignmentById at hx
  rcases List.mem_map.mp hx with ⟨y, hy, hxy⟩
  exact ⟨y, hy, hxy.symm⟩

/-! ### Claim C1 -/

/-- Claim C1 (amended): `acceptTender`, `rejectTender` and
`processDriverResponse` refuse to touch an offer in a terminal state and
roll back, and `cancelTender` refuses CANCELLED and EXPIRED tenders; but
`cancelTender` does transition an ACCEPTED or REJECTED tender to
CANCELLED, so ACCEPTED and REJECTED are not terminal for it. -/
theorem C1_terminal_transitions :
    (∀ (db : DB) (now : Nat) (tid cid : String) (u : UserCtx) (t : LoadTenderEntity),
       findTenderForResponse db tid cid = some t →
       (t.status = TenderStatus.ACCEPTED ∨ t.status = TenderStatus.REJECTED ∨
        t.status = TenderStatus.EXPIRED ∨ t.status = TenderStatus.CANCELLED) →
       acceptTender db now tid cid u = .error .tenderNotOffered ∧
       runTx (acceptTender db now tid cid u) db = db) ∧
    (∀ (db : DB) (now : Nat) (tid cid : String) (r : Option String) (u : UserCtx)
       (t : LoadTenderEntity),
       findTenderForResponse db tid cid = some t →
       (t.status = TenderStatus.ACCEPTED ∨ t.status = TenderStatus.REJECTED ∨
        t.status = TenderStatus.EXPIRED ∨ t.status = TenderStatus.CANCELLED) →
       rejectTender db now tid cid r u = .error .tenderNotOffered ∧
       runTx (rejectTender db now tid cid r u) db = db) ∧
    (∀ (db : DB) (now : Nat) (tid r : String) (u : UserCtx) (t : LoadTenderEntity),
       db.tenders.find? (fun x => x.id == tid) = some t →
       (t.status = TenderStatus.CANCELLED ∨ t.status = TenderStatus.EXPIRED) →
       cancelTender db now tid r u = .error .tenderAlreadyCancelledOrExpired ∧
       runTx (cancelTender db now tid r u) db = db) ∧
    (∀ (db : DB) (now : Nat) (tid r : String) (u : UserCtx) (t : LoadTenderEntity),
       db.tenders.find? (fun x => x.id == tid) = some t →
       (t.status = TenderStatus.ACCEPTED ∨ t.status = TenderStatus.REJECTED) →
       (∃ db', cancelTender db now tid r u = .ok db') ∧
       ∀ x ∈ (runTx (cancelTender db now tid r u) db).tenders,
         x.id = tid → x.status = TenderStatus.CANCELLED) ∧
    (∀ (db : DB) (now : Nat) (did resp aid : String) (u : UserCtx)
       (a : DispatchAssignmentEntity),
       db.assignments.find? (fun x => x.id == aid && x.driverId == did) = some a →
       a.status ≠ DispatchStatus.DISPATCHED →
       processDriverResponse db now did resp aid u = .error .assignmentNotDispatched ∧
       runTx (processDriverResponse db now did resp aid u) db = db) := by
  refine ⟨?_, ?_, ?_, ?_, ?_⟩
  · intro db now tid cid u t hfind ht
    have hne : t.status ≠ TenderStatus.OFFERED := by
      rcases ht with h | h | h | h <;> simp [h]
    have h1 : acceptTender db now tid cid u = .error .tenderNotOffered := by
      unfold acceptTender
      rw [hfind]
      simp [hne]
    exact ⟨h1, by rw [h1]; rfl⟩
  · intro db now tid cid r u t hfind ht
    have hne : t.status ≠ TenderStatus.OFFERED := by
      rcases ht with h | h | h | h <;> simp [h]
    have h1 : rejectTender db now tid cid r u = .error .tenderNotOffered := by
      unfold rejectTender
      rw [hfind]
      simp [hne]
    exact ⟨h1, by rw [h1]; rfl⟩
  · intro db now tid r u t hfind ht
    have h1 : cancelTender db now tid r u = .error .tenderAlreadyCancelledOrExpired := by
      unfold cancelTender
      rw [hfind]
      simp [ht]
    exact ⟨h1, by rw [h1]; rfl⟩
  · intro db now tid r u t hfind ht
    have hne : ¬ (t.status = TenderStatus.CANCELLED ∨ t.status = TenderStatus.EXPIRED) := by
      rcases ht with h | h <;> simp [h]
    refine ⟨?_, ?_⟩
    · unfold cancelTender
      rw [hfind]
      dsimp only
      rw [if_neg hne]
      exact ⟨_, rfl⟩
    · intro x hx hid
      unfold cancelTender at hx
      rw [hfind] at hx
      dsimp only at hx
      rw [if_neg hne] at hx
      simp only [runTx] at hx
      rcases mem_updateTenderById hx with ⟨y, _, hxy⟩
      by_cases hyid : y.id = tid
      · rw [hxy, if_pos hyid]
      · rw [hxy, if_neg hyid] at hid
        exact absurd hid hyid
  · intro db now did resp aid u a hfind ha
    have h1 : processDriverResponse db now did resp aid u = .error .assignmentNotDispatched := by
      unfold processDriverResponse
      rw [hfind]
      simp [ha]
    exact ⟨h1, by rw [h1]; rfl⟩

/-- Claim C1 counterexample: the store `acceptedTenderDB` holds a tender
in the terminal state ACCEPTED, and `cancelTender` succeeds on it,
changing its state to CANCELLED (and reverting the shipment to QUOTE). -/
theorem C1_counterexample :
    acceptedTenderDB.tenders.map (fun t => t.status) = [TenderStatus.ACCEPTED] ∧
    (runTx (cancelTender acceptedTenderDB 10 "T1" "ops cancel" opsUser)
        acceptedTenderDB).tenders.map (fun t => t.status) = [TenderStatus.CANCELLED] ∧
    (runTx (cancelTender acceptedTenderDB 10 "T1" "ops cancel" opsUser)
        acceptedTenderDB).shipments.map (fun s => s.status) = [ShipmentStatus.QUOTE] := by
  refine ⟨by decide, by decide, by decide⟩

/-- Claim C1 witness: the amended theorem applied to the concrete store
`acceptedTenderDB` (accepting an already-ACCEPTED tender fails and rolls
back). -/
theorem C1_terminal_transitions_witness :
    acceptTender acceptedTenderDB 10 "T1" "C1" opsUser = .error .tenderNotOffered ∧
    runTx (acceptTender acceptedTenderDB 10 "T1" "C1" opsUser) acceptedTenderDB =
      acceptedTenderDB :=
  C1_terminal_transitions.1 acceptedTenderDB 10 "T1" "C1" opsUser tenderT1acc
    (by decide) (Or.inl (by decide))

/-! ### Claim C3 -/

/-- Claim C3 (amended): accepting a tender whose offer expiry lies in the
past fails with the expired error, and the whole transaction rolls back:
the tender stays OFFERED; it is not moved to EXPIRED. -/
theorem C3_expired_accept_rolls_back
    (db : DB) (now : Nat) (tid cid : String) (u : UserCtx) (t : LoadTenderEntity)
    (hfind : findTenderForResponse db tid cid = some t)
    (hoff : t.status = TenderStatus.OFFERED)
    (hexp : now > t.offerExpiryDate.getD 0) :
    acceptTender db now tid cid u = .error .tenderExpired ∧
    runTx (acceptTender db now tid cid u) db = db := by
  have h1 : acceptTender db now tid cid u = .error .tenderExpired := by
    unfold acceptTender
    rw [hfind]
    simp [hoff, hexp]
  exact ⟨h1, by rw [h1]; rfl⟩

/-- Claim C3 counterexample: in `expiredTenderDB` the sole tender is
OFFERED with expiry 5; accepting it at time 10 raises the expired error,
and afterwards the tender is still OFFERED, not EXPIRED. -/
theorem C3_counterexample :
    acceptTender expiredTenderDB 10 "T1" "C1" opsUser = .error .tenderExpired ∧
    (runTx (acceptTender expiredTenderDB 10 "T1" "C1" opsUser) expiredTenderDB).tenders.map
      (fun t => t.status) = [TenderStatus.OFFERED] := by
  exact ⟨rfl, by decide⟩

/-- Claim C3 witness: the amended theorem applied to `expiredTenderDB`. -/
theorem C3_expired_accept_rolls_back_witness :
    acceptTender expiredTenderDB 10 "T1" "C1" opsUser = .error .tenderExpired ∧
    runTx (acceptTender expiredTenderDB 10 "T1" "C1" opsUser) expiredTenderDB =
      expiredTenderDB :=
  C3_expired_accept_rolls_back expiredTenderDB 10 "T1" "C1" opsUser tenderT1exp
    (by decide) (by decide) (by decide)

/-! ### Claims C6 and C7: the inbound webhook -/

/-- `parseSmsResponse` never extracts a driver or assignment id, for any
body whatsoever. -/
theorem parseSmsResponse_no_ids (rawBody : String) :
    (parseSmsResponse rawBody).driverId = none ∧
    (parseSmsResponse rawBody).assignmentId = none := by
  unfold parseSmsResponse
  dsimp only
  split
  · exact ⟨rfl, rfl⟩
  · split
    · exact ⟨rfl, rfl⟩
    · split
      · exact ⟨rfl, rfl⟩
      · split
        · exact ⟨rfl, rfl⟩
        · exact ⟨rfl, rfl⟩

/-- Claim C7 (code evaluation): the webhook handler performs no actor or
offer correlation at all.  For every store and payload it leaves the
store unchanged and reports failure; in particular, in `dispatchedDB`
exactly one OFFERED dispatch assignment is addressed to the driver with
phone +15550100, yet the inbound accept from that phone is answered with
the missing-IDs failure and no decision is applied. -/
theorem C7_webhook_never_correlates :
    (∀ (db : DB) (now : Nat) (payload : SmsWebhookPayload),
       (receiveSmsWebhook db now payload).1 = db ∧
       (receiveSmsWebhook db now payload).2.success = false) ∧
    receiveSmsWebhook dispatchedDB 50 ⟨"+15550100", "+15550999", "1"⟩ =
      (dispatchedDB, ⟨false, "Could not process SMS response - missing IDs"⟩) := by
  constructor
  · intro db now payload
    obtain ⟨hd, ha⟩ := parseSmsResponse_no_ids payload.Body
    unfold receiveSmsWebhook
    dsimp only
    rcases hresp : (parseSmsResponse payload.Body).response with _ | r
    · exact ⟨rfl, rfl⟩
    · rw [hd, ha]
      exact ⟨rfl, rfl⟩
  · rfl

/-- Claim C6 (amended): a redelivered inbound message never changes the
store, but it is not acknowledged as a no-op success: the webhook
answers every recognised message with a failed result (missing IDs), and
a direct `processDriverResponse` on an assignment already in a terminal
state raises the not-DISPATCHED error and rolls back. -/
theorem C6_redelivered_terminal_noop :
    (∀ (db : DB) (now : Nat) (payload : SmsWebhookPayload) (r : String),
       (parseSmsResponse payload.Body).response = some r →
       receiveSmsWebhook db now payload =
         (db, ⟨false, "Could not process SMS response - missing IDs"⟩)) ∧
    (∀ (db : DB) (now : Nat) (did resp aid : String) (u : UserCtx)
       (a : DispatchAssignmentEntity),
       db.assignments.find? (fun x => x.id == aid && x.driverId == did) = some a →
       a.status ≠ DispatchStatus.DISPATCHED →
       processDriverResponse db now did resp aid u = .error .assignmentNotDispatched ∧
       runTx (processDriverResponse db now did resp aid u) db = db) := by
  constructor
  · intro db now payload r hresp
    obtain ⟨hd, ha⟩ := parseSmsResponse_no_ids payload.Body
    unfold receiveSmsWebhook
    dsimp only
    rw [hresp, hd, ha]
  · intro db now did resp aid u a hfind ha
    have h1 : processDriverResponse db now did resp aid u =
        .error .assignmentNotDispatched := by
      unfold processDriverResponse
      rw [hfind]
      simp [ha]
    exact ⟨h1, by rw [h1]; rfl⟩

/-- Claim C6 counterexample: in `confirmedDispatchDB` the only dispatch
assignment is already CONFIRMED (terminal); the redelivered accept
webhook from the driver's phone changes nothing but reports failure
rather than a no-op success, and the direct response path raises an
error. -/
theorem C6_counterexample :
    (receiveSmsWebhook confirmedDispatchDB 50 ⟨"+15550100", "+15550999", "1"⟩).2.success
      = false ∧
    (receiveSmsWebhook confirmedDispatchDB 50 ⟨"+15550100", "+15550999", "1"⟩).1 =
      confirmedDispatchDB ∧
    processDriverResponse confirmedDispatchDB 50 "D1" "1" "A1" opsUser =
      .error .assignmentNotDispatched := by
  exact ⟨rfl, by decide, rfl⟩

/-- Claim C6 witness: the amended theorem applied to the concrete
redelivery scenario on `confirmedDispatchDB`. -/
theorem C6_redelivered_terminal_noop_witness :
    receiveSmsWebhook confirmedDispatchDB 50 ⟨"+15550100", "+15550999", "1"⟩ =
      (confirmedDispatchDB, ⟨false, "Could not process SMS response - missing IDs"⟩) ∧
    processDriverResponse confirmedDispatchDB 50 "D1" "1" "A1" opsUser =
      .error .assignmentNotDispatched :=
  ⟨C6_redelivered_terminal_noop.1 confirmedDispatchDB 50 ⟨"+15550100", "+15550999", "1"⟩
      "1" (by rfl),
   (C6_redelivered_terminal_noop.2 confirmedDispatchDB 50 "D1" "1" "A1" opsUser
      assignA1conf (by decide) (by decide)).1⟩

/-! ### Claim C8: intent classification -/

/-- `containsSeq` decides list containment. -/
theorem containsSeq_iff_sublistContig (pat s : List Char) :
    containsSeq pat s = true ↔ pat <:+: s := by
  induction s with
  | nil =>
    simp only [containsSeq, List.isEmpty_iff, List.infix_nil]
  | cons c rest ih =>
    simp only [containsSeq, Bool.or_eq_true, List.isPrefixOf_iff_prefix, ih,
      List.infix_cons_iff]

/-- A body with no occurrence of "no" has no occurrence of "cannot"
either (the source's `/cannot/` pattern is subsumed by `/no/`). -/
theorem containsSub_cannot_of_no {b : String} (h : containsSub b "no" = false) :
    containsSub b "cannot" = false := by
  by_contra hc
  rw [Bool.not_eq_false] at hc
  have h1 : ("cannot".toList : List Char) <:+: b.toList :=
    (containsSeq_iff_sublistContig _ _).mp hc
  have h2 : ("no".toList : List Char) <:+: "cannot".toList :=
    (containsSeq_iff_sublistContig _ _).mp (by rfl)
  have h3 : containsSeq "no".toList b.toList = true :=
    (containsSeq_iff_sublistContig _ _).mpr (h2.trans h1)
  unfold containsSub at h
  rw [h] at h3
  exact Bool.false_ne_true h3

/-- Decompose a false `acceptFamily` into its six keyword tests. -/
theorem acceptFamily_false_parts {b : String} (h : acceptFamily b = false) :
    containsSub b "confirm" = false ∧ containsSub b "accept" = false ∧
    containsSub b "yes" = false ∧ containsSub b "ok" = false ∧
    containsSub b "got it" = false ∧ containsSub b "on my way" = false := by
  unfold acceptFamily at h
  simp only [Bool.or_eq_false_iff] at h
  tauto

/-- Decompose a false `rejectFamily` into its six keyword tests. -/
theorem rejectFamily_false_parts {b : String} (h : rejectFamily b = false) :
    containsSub b "reject" = false ∧ containsSub b "decline" = false ∧
    containsSub b "no" = false ∧ containsSub b cantKw = false ∧
    containsSub b "busy" = false ∧ containsSub b "not available" = false := by
  unfold rejectFamily at h
  simp only [Bool.or_eq_false_iff] at h
  tauto

/-- Claim C8: classification of inbound bodies.  The exact digits "1"
and "2" classify as accept and reject; a body matching only the
accept-keyword family classifies as accept; a body matching only the
reject-keyword family classifies as reject; a body matching neither
family and neither digit (such as "maybe") is unrecognised.  (For a body
matching both families the source's ordered rules decide.) -/
theorem C8_classification :
    (parseSmsResponse "1").response = some "1" ∧
    (parseSmsResponse "2").response = some "2" ∧
    (parseSmsResponse "maybe").response = none ∧
    (∀ body : String,
       acceptFamily (strLower (strTrim body)) = true →
       rejectFamily (strLower (strTrim body)) = false →
       (parseSmsResponse body).response = some "1") ∧
    (∀ body : String,
       rejectFamily (strLower (strTrim body)) = true →
       acceptFamily (strLower (strTrim body)) = false →
       (parseSmsResponse body).response = some "2") ∧
    (∀ body : String,
       strLower (strTrim body) ≠ "1" → strLower (strTrim body) ≠ "2" →
       acceptFamily (strLower (strTrim body)) = false →
       rejectFamily (strLower (strTrim body)) = false →
       (parseSmsResponse body).response = none) := by
  refine ⟨by decide, by decide, by decide, ?_, ?_, ?_⟩
  · intro body hacc hrej
    unfold parseSmsResponse
    dsimp only
    generalize hb : strLower (strTrim body) = b at hacc hrej ⊢
    obtain ⟨hrj1, hrj2, hrj3, hrj4, hrj5, hrj6⟩ := rejectFamily_false_parts hrej
    have hb2 : (b == "2") = false := by
      cases hbe : b == "2"
      · rfl
      · rw [beq_iff_eq.mp hbe] at hacc
        exact absurd hacc (by decide)
    by_cases hc : containsSub b "confirm" = true
    · simp [hc]
    · have hc' : containsSub b "confirm" = false := by
        simpa using hc
      unfold acceptFamily at hacc
      simp only [Bool.or_eq_true] at hacc
      rcases hacc with ((((h | h) | h) | h) | h) | h <;>
        simp [h, hc', hb2, hrj1]
  · intro body hrej hacc
    unfold parseSmsResponse
    dsimp only
    generalize hb : strLower (strTrim body) = b at hacc hrej ⊢
    obtain ⟨hac1, hac2, hac3, hac4, hac5, hac6⟩ := acceptFamily_false_parts hacc
    have hb1 : (b == "1") = false := by
      cases hbe : b == "1"
      · rfl
      · rw [beq_iff_eq.mp hbe] at hrej
        exact absurd hrej (by decide)
    by_cases hb2 : (b == "2") = true
    · simp [hb1, hb2, hac1]
    · have hb2' : (b == "2") = false := by
        simpa using hb2
      unfold rejectFamily at hrej
      simp only [Bool.or_eq_true] at hrej
      rcases hrej with ((((h | h) | h) | h) | h) | h <;>
        simp [h, hb1, hb2', hac1, hac2, hac3, hac4, hac5, hac6]
  · intro body hb1 hb2 hacc hrej
    unfold parseSmsResponse
    dsimp only
    generalize hb : strLower (strTrim body) = b at hb1 hb2 hacc hrej ⊢
    obtain ⟨hac1, hac2, hac3, hac4, hac5, hac6⟩ := acceptFamily_false_parts hacc
    obtain ⟨hrj1, hrj2, hrj3, hrj4, hrj5, hrj6⟩ := rejectFamily_false_parts hrej
    have hcn : containsSub b "cannot" = false := containsSub_cannot_of_no hrj3
    have hb1' : (b == "1") = false := by
      cases hbe : b == "1"
      · rfl
      · exact absurd (beq_iff_eq.mp hbe) hb1
    have hb2' : (b == "2") = false := by
      cases hbe : b == "2"
      · rfl
      · exact absurd (beq_iff_eq.mp hbe) hb2
    simp [hb1', hb2', hcn, hac1, hac2, hac3, hac4, hac5, hac6,
      hrj1, hrj2, hrj3, hrj4, hrj5, hrj6]

/-- Claim C8 witness: the accept-only branch applied to the body
" Got IT ", which matches only the accept family. -/
theorem C8_classification_witness :
    (parseSmsResponse " Got IT ").response = some "1" :=
  C8_classification.2.2.2.1 " Got IT " (by decide) (by decide)

/-! ### Claim C4: effects of a driver response -/

/-- Claim C4 (amended): on an accept response the assignment becomes
CONFIRMED and the parent shipment's status is set to BOOKED (the
`ShipmentStatus` enum has no confirmed member; BOOKED is the same value
tender acceptance writes); on a reject response the assignment becomes
REJECTED, the shipment reverts to TENDERED with its assigned driver
cleared, and the driver returns to ACTIVE. -/
theorem C4_driver_response_effects :
    (∀ (db : DB) (now : Nat) (did aid : String) (u : UserCtx)
       (a : DispatchAssignmentEntity) (d : DriverEntity) (db' : DB),
       db.assignments.find? (fun x => x.id == aid && x.driverId == did) = some a →
       db.drivers.find? (fun x => x.id == did) = some d →
       processDriverResponse db now did "1" aid u = .ok db' →
       (∀ x ∈ db'.assignments, x.id = aid → x.status = DispatchStatus.CONFIRMED) ∧
       (∀ s ∈ db'.shipments, s.id = a.shipmentId → s.status = ShipmentStatus.BOOKED)) ∧
    (∀ (db : DB) (now : Nat) (did aid : String) (u : UserCtx)
       (a : DispatchAssignmentEntity) (d : DriverEntity) (db' : DB),
       db.assignments.find? (fun x => x.id == aid && x.driverId == did) = some a →
       db.drivers.find? (fun x => x.id == did) = some d →
       processDriverResponse db now did "2" aid u = .ok db' →
       (∀ x ∈ db'.assignments, x.id = aid → x.status = DispatchStatus.REJECTED) ∧
       (∀ s ∈ db'.shipments, s.id = a.shipmentId →
          s.status = ShipmentStatus.TENDERED ∧ s.assignedDriverId = none) ∧
       (∀ x ∈ db'.drivers, x.id = did → x.status = DriverStatus.ACTIVE)) := by
  constructor
  · intro db now did aid u a d db' hfa hfd hok
    unfold processDriverResponse at hok
    rw [hfa] at hok
    dsimp only at hok
    by_cases ha : a.status = DispatchStatus.DISPATCHED
    · rw [if_neg (by simp [ha])] at hok
      rw [hfd] at hok
      dsimp only at hok
      rw [if_pos rfl] at hok
      rw [Except.ok.injEq] at hok
      subst hok
      constructor
      · intro x hx hid
        rcases mem_updateAssignmentById hx with ⟨y, _, hxy⟩
        by_cases hyid : y.id = aid
        · rw [hxy, if_pos hyid]
        · rw [hxy, if_neg hyid] at hid
          exact absurd hid hyid
      · intro s hs hid
        rcases mem_updateShipmentById hs with ⟨y, _, hsy⟩
        by_cases hyid : y.id = a.shipmentId
        · rw [hsy, if_pos hyid]
        · rw [hsy, if_neg hyid] at hid
          exact absurd hid hyid
    · rw [if_pos (by simpa using ha)] at hok
      exact absurd hok (by simp)
  · intro db now did aid u a d db' hfa hfd hok
    unfold processDriverResponse at hok
    rw [hfa] at hok
    dsimp only at hok
    by_cases ha : a.status = DispatchStatus.DISPATCHED
    · rw [if_neg (by simp [ha])] at hok
      rw [hfd] at hok
      dsimp only at hok
      rw [if_neg (by decide), if_pos rfl] at hok
      rw [Except.ok.injEq] at hok
      subst hok
      refine ⟨?_, ?_, ?_⟩
      · intro x hx hid
        rcases mem_updateAssignmentById hx with ⟨y, _, hxy⟩
        by_cases hyid : y.id = aid
        · rw [hxy, if_pos hyid]
        · rw [hxy, if_neg hyid] at hid
          exact absurd hid hyid
      · intro s hs hid
        rcases mem_updateShipmentById hs with ⟨y, _, hsy⟩
        by_cases hyid : y.id = a.shipmentId
        · rw [hsy, if_pos hyid]
          exact ⟨rfl, rfl⟩
        · rw [hsy, if_neg hyid] at hid
          exact absurd hid hyid
      · intro x hx hid
        have hx' : x ∈ updateDriverById db.drivers did
            (fun d => { d with status := DriverStatus.ACTIVE }) := hx
        unfold updateDriverById at hx'
        rcases List.mem_map.mp hx' with ⟨y, _, hxy⟩
        by_cases hyid : y.id = did
        · rw [← hxy, if_pos hyid]
        · rw [← hxy, if_neg hyid] at hid
          exact absurd hid hyid
    · rw [if_pos (by simpa using ha)] at hok
      exact absurd hok (by simp)

/-- Claim C4 counterexample: in `dispatchedDB` the driver accepts
(response "1"); afterwards the parent shipment's status is BOOKED — the
value the spec calls "booked", written by tender acceptance — not a
confirmed status, which does not exist in the `ShipmentStatus` enum. -/
theorem C4_counterexample :
    (runTx (processDriverResponse dispatchedDB 50 "D1" "1" "A1" opsUser)
        dispatchedDB).shipments.map (fun s => s.status) = [ShipmentStatus.BOOKED] ∧
    (runTx (processDriverResponse dispatchedDB 50 "D1" "1" "A1" opsUser)
        dispatchedDB).assignments.map (fun a => a.status) = [DispatchStatus.CONFIRMED] := by
  exact ⟨by decide, by decide⟩

/-- Claim C4 witness: the amended theorem applied to the concrete accept
in `dispatchedDB`. -/
theorem C4_driver_response_effects_witness :
    ((runTx (processDriverResponse dispatchedDB 50 "D1" "1" "A1" opsUser)
        dispatchedDB).assignments.get ⟨0, by decide⟩).status = DispatchStatus.CONFIRMED := by
  have H := C4_driver_response_effects.1 dispatchedDB 50 "D1" "A1" opsUser assignA1disp
    driverD1busy
    (runTx (processDriverResponse dispatchedDB 50 "D1" "1" "A1" opsUser) dispatchedDB)
    (by decide) (by decide) (by rfl)
  exact H.1 _ (List.get_mem _ _ _) (by decide)

/-! ### Claim C9: driver eligibility gate -/

/-- `isDriverAvailable` returns false exactly when the status gate, the
CDL expiry gate, or the medical-certificate gate trips. -/
theorem isDriverAvailable_false_iff (d : DriverEntity) (now : Nat) :
    isDriverAvailable d now = false ↔
      ((d.status ≠ DriverStatus.ACTIVE ∧ d.status ≠ DriverStatus.OFF_DUTY) ∨
       (∃ x, d.licenseExpirationDate = some x ∧ x < now) ∨
       (∃ x, d.medicalCertExpiration = some x ∧ x < now)) := by
  unfold isDriverAvailable
  rcases hl : d.licenseExpirationDate with _ | lx <;>
    rcases hm : d.medicalCertExpiration with _ | mx <;>
    by_cases hs : d.status ≠ DriverStatus.ACTIVE ∧ d.status ≠ DriverStatus.OFF_DUTY <;>
      simp [hl, hm, hs]
  all_goals omega

/-- Claim C9: with the shipment valid for dispatch, the driver present,
and no duplicate active assignment, offer creation fails with an
ineligibility error exactly when the driver is inactive, has a status
outside ACTIVE and OFF_DUTY, an expired license, or an expired medical
certificate; when none of these holds, creation succeeds. -/
theorem C9_dispatch_eligibility
    (db : DB) (now : Nat) (shipmentId driverId dispatchType newId : String) (u : UserCtx)
    (shipment : ShipmentEntity) (driver : DriverEntity)
    (hs : db.shipments.find? (fun s => s.id == shipmentId && s.tenantId == u.companyId) =
      some shipment)
    (hst : shipment.status = ShipmentStatus.BOOKED ∨ shipment.status = ShipmentStatus.TENDERED)
    (hat : (db.tenders.find? fun t =>
      t.shipmentId == shipmentId && t.status == TenderStatus.ACCEPTED).isSome = true)
    (hd : db.drivers.find? (fun x => x.id == driverId) = some driver)
    (hnodup : db.assignments.find? (fun a =>
      a.shipmentId == shipmentId && a.driverId == driverId &&
      (a.status == DispatchStatus.DISPATCHED || a.status == DispatchStatus.CONFIRMED)) = none) :
    ((assignDriver db now shipmentId driverId dispatchType newId u =
        .error .driverNotActive ∨
      assignDriver db now shipmentId driverId dispatchType newId u =
        .error .driverNotAvailable) ↔
      (driver.isActive = false ∨
       (driver.status ≠ DriverStatus.ACTIVE ∧ driver.status ≠ DriverStatus.OFF_DUTY) ∨
       (∃ x, driver.licenseExpirationDate = some x ∧ x < now) ∨
       (∃ x, driver.medicalCertExpiration = some x ∧ x < now))) ∧
    ((driver.isActive = true ∧ isDriverAvailable driver now = true) →
      ∃ db', assignDriver db now shipmentId driverId dispatchType newId u = .ok db') := by
  have hstn : ¬(shipment.status ≠ ShipmentStatus.BOOKED ∧
      shipment.status ≠ ShipmentStatus.TENDERED) := by
    rcases hst with h | h <;> simp [h]
  have hatn : ¬((db.tenders.find? fun t =>
      t.shipmentId == shipmentId && t.status == TenderStatus.ACCEPTED).isNone = true) := by
    rw [Option.isNone_iff_eq_none]
    intro hnone
    simp [hnone] at hat
  have hdupn : ¬((db.assignments.find? (fun a =>
      a.shipmentId == shipmentId && a.driverId == driverId &&
      (a.status == DispatchStatus.DISPATCHED ||
        a.status == DispatchStatus.CONFIRMED))).isSome = true) := by
    simp [hnodup]
  unfold assignDriver
  rw [hs]
  dsimp only
  rw [if_neg hstn, if_neg hatn, hd]
  dsimp only
  cases hact : driver.isActive with
  | false =>
    rw [if_pos rfl]
    constructor
    · simp
    · intro h
      exact absurd h.1 (by simp [hact])
  | true =>
    rw [if_neg (by decide)]
    cases hav : isDriverAvailable driver now with
    | false =>
      rw [if_pos rfl]
      constructor
      · simp [← isDriverAvailable_false_iff driver now, hav]
      · intro h
        exact absurd h.2 (by simp [hav])
    | true =>
      rw [if_neg (by decide), if_neg hdupn]
      constructor
      · have hna := (isDriverAvailable_false_iff driver now).not.mp (by simp [hav])
        constructor
        · intro h
          rcases h with h | h <;> exact absurd h (by simp)
        · intro h
          rcases h with h | h
          · exact absurd h (by simp)
          · exact absurd h hna
      · intro _
        exact ⟨_, rfl⟩

/-- Claim C9 witness: in `readyDispatchDB` no ineligibility condition
holds, so the iff yields no ineligibility error and creation succeeds. -/
theorem C9_dispatch_eligibility_witness :
    assignDriver readyDispatchDB 50 "S1" "D1" "PRIMARY" "A1" opsUser =
      .ok (runTx (assignDriver readyDispatchDB 50 "S1" "D1" "PRIMARY" "A1" opsUser)
        readyDispatchDB) := by
  obtain ⟨db', h⟩ := (C9_dispatch_eligibility readyDispatchDB 50 "S1" "D1" "PRIMARY" "A1"
    opsUser
    { id := "S1", tenantId := "TEN1", status := ShipmentStatus.BOOKED,
      carrierId := some "C1" }
    driverD1idle (by decide) (Or.inl (by decide)) (by decide) (by decide) (by decide)).2
    ⟨by decide, by decide⟩
  rw [h]
  exact rfl

/-! ### Claims C2 and C5: acceptance, cascade and the audit trail -/

/-- In a list where exactly one element satisfies `p` (counted with
multiplicity), any two members satisfying `p` are equal. -/
theorem countP_eq_one_unique {α : Type} {p : α → Bool} {l : List α}
    (h : l.countP p = 1) :
    ∀ {a b : α}, a ∈ l → p a = true → b ∈ l → p b = true → a = b := by
  induction l with
  | nil => intro a b ha _ _ _; cases ha
  | cons x xs ih =>
    intro a b ha hpa hb hpb
    rw [List.countP_cons] at h
    by_cases hpx : p x = true
    · rw [if_pos hpx] at h
      have h0 : xs.countP p = 0 := by omega
      have hnone : ∀ c ∈ xs, ¬ p c = true := List.countP_eq_zero.mp h0
      rcases List.mem_cons.mp ha with rfl | ha'
      · rcases List.mem_cons.mp hb with rfl | hb'
        · rfl
        · exact absurd hpb (hnone b hb')
      · exact absurd hpa (hnone a ha')
    · rw [if_neg hpx] at h
      have h1 : xs.countP p = 1 := by omega
      rcases List.mem_cons.mp ha with rfl | ha'
      · exact absurd hpa hpx
      · rcases List.mem_cons.mp hb with rfl | hb'
        · exact absurd hpb hpx
        · exact ih h1 ha' hpa hb' hpb

/-- Zipping a list with its image under a map pairs each element with
its image. -/
theorem zip_self_map {α β : Type} (l : List α) (f : α → β) :
    l.zip (l.map f) = l.map (fun x => (x, f x)) := by
  induction l with
  | nil => rfl
  | cons x xs ih => simp [ih]

/-- A successful `acceptTender` produces exactly the store obtained by
writing the accepted row, booking the shipment, and running the bulk
cascade, in that order. -/
theorem acceptTender_ok_shape
    (db : DB) (now : Nat) (tid cid : String) (u : UserCtx) (t : LoadTenderEntity)
    (db' : DB)
    (hfind : findTenderForResponse db tid cid = some t)
    (hok : acceptTender db now tid cid u = .ok db') :
    t.status = TenderStatus.OFFERED ∧ ¬ now > t.offerExpiryDate.getD 0 ∧
    db' = rejectOtherTenders
      { db with
          tenders := updateTenderById db.tenders tid (acceptPayload t now u.id)
          shipments := updateShipmentById db.shipments t.shipmentId fun s =>
            { s with
                status := ShipmentStatus.BOOKED
                carrierId := some t.carrierId
                updatedById := some u.id } }
      t.shipmentId now := by
  unfold acceptTender at hok
  rw [hfind] at hok
  dsimp only at hok
  by_cases hstat : t.status = TenderStatus.OFFERED
  · rw [if_neg (by simp [hstat])] at hok
    by_cases hexp : now > t.offerExpiryDate.getD 0
    · rw [if_pos hexp] at hok
      exact absurd hok (by simp)
    · rw [if_neg hexp] at hok
      rw [Except.ok.injEq] at hok
      exact ⟨hstat, hexp, hok.symm⟩
  · rw [if_pos hstat] at hok
    exact absurd hok (by simp)

/-- Claim C2: provided the accepted tender's row id is unique and no
tender of the shipment is already ACCEPTED, a successful `acceptTender`
leaves the target ACCEPTED, turns every other previously-OFFERED tender
of the shipment to CANCELLED (positionally, via the zip of old and new
rows), leaves no tender of the shipment OFFERED, leaves exactly one
ACCEPTED tender for the shipment, and books the shipment — all inside
the one transaction whose committed store is `db'`. -/
theorem C2_accept_single_winner
    (db : DB) (now : Nat) (tid cid : String) (u : UserCtx) (t : LoadTenderEntity)
    (db' : DB)
    (hfind : findTenderForResponse db tid cid = some t)
    (hok : acceptTender db now tid cid u = .ok db')
    (huniq : db.tenders.countP (fun x => x.id == tid) = 1)
    (hnoacc : ∀ x ∈ db.tenders, x.shipmentId = t.shipmentId →
      x.status ≠ TenderStatus.ACCEPTED) :
    (∀ x ∈ db'.tenders, x.id = tid → x.status = TenderStatus.ACCEPTED) ∧
    db'.tenders.length = db.tenders.length ∧
    (∀ p ∈ db.tenders.zip db'.tenders,
       p.1.shipmentId = t.shipmentId → p.1.status = TenderStatus.OFFERED →
       p.1.id ≠ tid → p.2.status = TenderStatus.CANCELLED) ∧
    (∀ x ∈ db'.tenders, x.shipmentId = t.shipmentId →
       x.status ≠ TenderStatus.OFFERED) ∧
    db'.tenders.countP (fun x => x.shipmentId == t.shipmentId &&
      x.status == TenderStatus.ACCEPTED) = 1 ∧
    (∀ s ∈ db'.shipments, s.id = t.shipmentId → s.status = ShipmentStatus.BOOKED) := by
  obtain ⟨hstat, hexp, hshape⟩ := acceptTender_ok_shape db now tid cid u t db' hfind hok
  have hfind' : db.tenders.find? (fun x => x.id == tid && x.carrierId == cid) = some t :=
    hfind
  have htmem : t ∈ db.tenders := List.mem_of_find?_eq_some hfind'
  have htid : t.id = tid := by
    have h := List.find?_some hfind'
    simp only [Bool.and_eq_true, beq_iff_eq] at h
    exact h.1
  have key : ∀ y ∈ db.tenders, y.id = tid → y = t := by
    intro y hy hyid
    exact countP_eq_one_unique huniq hy (by simp [hyid]) htmem (by simp [htid])
  have htens : db'.tenders = db.tenders.map (fun y =>
      (fun z => if z.shipmentId = t.shipmentId ∧ z.status = TenderStatus.OFFERED then
        cascadeCancel now z else z)
      (if y.id = tid then acceptPayload t now u.id y else y)) := by
    rw [hshape]
    simp only [rejectOtherTenders, updateTenderById]
    rw [List.map_map]
    rfl
  have hships : db'.shipments = updateShipmentById db.shipments t.shipmentId (fun s =>
      { s with
          status := ShipmentStatus.BOOKED
          carrierId := some t.carrierId
          updatedById := some u.id }) := by
    rw [hshape]
    rfl
  refine ⟨?_, ?_, ?_, ?_, ?_, ?_⟩
  · rw [htens]
    intro x hx hid
    rcases List.mem_map.mp hx with ⟨y, hy, hxy⟩
    by_cases hyid : y.id = tid
    · have hyt := key y hy hyid
      subst hyt
      rw [if_pos hyid] at hxy
      rw [← hxy]
      simp [acceptPayload, cascadeCancel]
    · rw [if_neg hyid] at hxy
      have hxid : x.id = y.id := by
        rw [← hxy]
        dsimp only
        by_cases hc : y.shipmentId = t.shipmentId ∧ y.status = TenderStatus.OFFERED
        · rw [if_pos hc]
          rfl
        · rw [if_neg hc]
      rw [hxid] at hid
      exact absurd hid hyid
  · rw [htens, List.length_map]
  · intro p hp hsid hoff hid
    rw [htens, zip_self_map] at hp
    rcases List.mem_map.mp hp with ⟨y, _, hpy⟩
    rw [← hpy] at hsid hoff hid ⊢
    dsimp only at hsid hoff hid ⊢
    rw [if_neg hid, if_pos ⟨hsid, hoff⟩]
    rfl
  · rw [htens]
    intro x hx hsid
    rcases List.mem_map.mp hx with ⟨y, hy, hxy⟩
    by_cases hyid : y.id = tid
    · have hyt := key y hy hyid
      subst hyt
      rw [if_pos hyid] at hxy
      rw [← hxy]
      simp [acceptPayload, cascadeCancel]
    · rw [if_neg hyid] at hxy
      dsimp only at hxy
      by_cases hc : y.shipmentId = t.shipmentId ∧ y.status = TenderStatus.OFFERED
      · rw [if_pos hc] at hxy
        rw [← hxy]
        simp [cascadeCancel]
      · rw [if_neg hc] at hxy
        rw [← hxy]
        intro hyoff
        rw [← hxy] at hsid
        exact hc ⟨hsid, hyoff⟩
  · rw [htens, List.countP_map]
    have hcong := List.countP_congr (l := db.tenders)
      (p := (fun x => x.shipmentId == t.shipmentId &&
        x.status == TenderStatus.ACCEPTED) ∘ (fun y =>
        (fun z => if z.shipmentId = t.shipmentId ∧ z.status = TenderStatus.OFFERED then
          cascadeCancel now z else z)
        (if y.id = tid then acceptPayload t now u.id y else y)))
      (q := fun x => x.id == tid) ?_
    · rw [hcong, huniq]
    · intro y hy
      by_cases hyid : y.id = tid
      · have hyt := key y hy hyid
        subst hyt
        simp [acceptPayload, cascadeCancel, hyid]
      · simp only [Function.comp_apply, if_neg hyid]
        by_cases hc : y.shipmentId = t.shipmentId ∧ y.status = TenderStatus.OFFERED
        · rw [if_pos hc]
          simp [cascadeCancel, hyid]
        · rw [if_neg hc]
          constructor
          · intro hP
            simp only [Bool.and_eq_true, beq_iff_eq] at hP
            exact absurd hP.2 (hnoacc y hy hP.1)
          · intro hq
            simp only [beq_iff_eq] at hq
            exact absurd hq hyid
  · rw [hships]
    intro s hs hid
    rcases mem_updateShipmentById hs with ⟨y, _, hsy⟩
    by_cases hyid : y.id = t.shipmentId
    · rw [hsy, if_pos hyid]
    · rw [hsy, if_neg hyid] at hid
      exact absurd hid hyid

/-- Claim C2 witness: the theorem applied to the spec's two-carrier
scenario `twoTenderDB`, accepting carrier C2's tender: exactly one
ACCEPTED tender remains for S1, the sibling T1 is CANCELLED, and the
shipment is BOOKED. -/
theorem C2_accept_single_winner_witness :
    (runTx (acceptTender twoTenderDB 50 "T2" "C2" opsUser) twoTenderDB).tenders.countP
      (fun x => x.shipmentId == "S1" && x.status == TenderStatus.ACCEPTED) = 1 ∧
    ((twoTenderDB.tenders.zip
        ((runTx (acceptTender twoTenderDB 50 "T2" "C2" opsUser) twoTenderDB).tenders)).get
      ⟨0, by decide⟩).2.status = TenderStatus.CANCELLED ∧
    ((runTx (acceptTender twoTenderDB 50 "T2" "C2" opsUser) twoTenderDB).shipments.get
      ⟨0, by decide⟩).status = ShipmentStatus.BOOKED := by
  have H := C2_accept_single_winner twoTenderDB 50 "T2" "C2" opsUser tenderT2off
    (runTx (acceptTender twoTenderDB 50 "T2" "C2" opsUser) twoTenderDB)
    (by decide) (by rfl) (by decide) (by decide)
  refine ⟨?_, ?_, ?_⟩
  · exact H.2.2.2.2.1
  · exact H.2.2.1 _ (List.get_mem _ _ _) (by decide) (by decide) (by decide)
  · exact H.2.2.2.2.2 _ (List.get_mem _ _ _) (by decide)

/-- Claim C5 (amended): each direct response operation (`acceptTender`,
`rejectTender`, `cancelTender`) writes on the responded tender exactly
the fetched audit trail plus one new entry; but the automatic cascade
cancellation of sibling OFFERED tenders replaces their audit trails with
a fresh single AUTO_CANCELLED entry instead of appending. -/
theorem C5_audit_trail_behavior :
    (∀ (db : DB) (now : Nat) (tid cid : String) (u : UserCtx) (t : LoadTenderEntity)
       (db' : DB),
       findTenderForResponse db tid cid = some t →
       acceptTender db now tid cid u = .ok db' →
       ∀ x ∈ db'.tenders, x.id = tid →
         x.auditTrail = t.auditTrail ++ [acceptedEntry now u.id]) ∧
    (∀ (db : DB) (now : Nat) (tid cid : String) (u : UserCtx) (t : LoadTenderEntity)
       (db' : DB),
       findTenderForResponse db tid cid = some t →
       acceptTender db now tid cid u = .ok db' →
       ∀ p ∈ db.tenders.zip db'.tenders,
         p.1.shipmentId = t.shipmentId → p.1.status = TenderStatus.OFFERED →
         p.1.id ≠ tid →
         p.2.auditTrail = [⟨"AUTO_CANCELLED", now, none,
           some "Cancelled due to another tender being accepted"⟩]) ∧
    (∀ (db : DB) (now : Nat) (tid cid : String) (r : Option String) (u : UserCtx)
       (t : LoadTenderEntity) (db' : DB),
       findTenderForResponse db tid cid = some t →
       rejectTender db now tid cid r u = .ok db' →
       ∀ x ∈ db'.tenders, x.id = tid →
         x.auditTrail = t.auditTrail ++
           [⟨"REJECTED", now, some u.id, some (r.getD "No reason provided")⟩]) ∧
    (∀ (db : DB) (now : Nat) (tid r : String) (u : UserCtx) (t : LoadTenderEntity)
       (db' : DB),
       db.tenders.find? (fun x => x.id == tid) = some t →
       cancelTender db now tid r u = .ok db' →
       ∀ x ∈ db'.tenders, x.id = tid →
         x.auditTrail = t.auditTrail ++ [⟨"CANCELLED", now, some u.id, some r⟩]) := by
  refine ⟨?_, ?_, ?_, ?_⟩
  · intro db now tid cid u t db' hfind hok
    obtain ⟨hstat, hexp, hshape⟩ := acceptTender_ok_shape db now tid cid u t db' hfind hok
    have htens : db'.tenders = db.tenders.map (fun y =>
        (fun z => if z.shipmentId = t.shipmentId ∧ z.status = TenderStatus.OFFERED then
          cascadeCancel now z else z)
        (if y.id = tid then acceptPayload t now u.id y else y)) := by
      rw [hshape]
      simp only [rejectOtherTenders, updateTenderById]
      rw [List.map_map]
      rfl
    rw [htens]
    intro x hx hid
    rcases List.mem_map.mp hx with ⟨y, _, hxy⟩
    by_cases hyid : y.id = tid
    · rw [if_pos hyid] at hxy
      rw [← hxy]
      simp [acceptPayload, cascadeCancel]
    · rw [if_neg hyid] at hxy
      have hxid : x.id = y.id := by
        rw [← hxy]
        dsimp only
        by_cases hc : y.shipmentId = t.shipmentId ∧ y.status = TenderStatus.OFFERED
        · rw [if_pos hc]
          rfl
        · rw [if_neg hc]
      rw [hxid] at hid
      exact absurd hid hyid
  · intro db now tid cid u t db' hfind hok
    obtain ⟨hstat, hexp, hshape⟩ := acceptTender_ok_shape db now tid cid u t db' hfind hok
    have htens : db'.tenders = db.tenders.map (fun y =>
        (fun z => if z.shipmentId = t.shipmentId ∧ z.status = TenderStatus.OFFERED then
          cascadeCancel now z else z)
        (if y.id = tid then acceptPayload t now u.id y else y)) := by
      rw [hshape]
      simp only [rejectOtherTenders, updateTenderById]
      rw [List.map_map]
      rfl
    intro p hp hsid hoff hid
    rw [htens, zip_self_map] at hp
    rcases List.mem_map.mp hp with ⟨y, _, hpy⟩
    rw [← hpy] at hsid hoff hid ⊢
    dsimp only at hsid hoff hid ⊢
    rw [if_neg hid, if_pos ⟨hsid, hoff⟩]
    rfl
  · intro db now tid cid r u t db' hfind hok
    unfold rejectTender at hok
    rw [hfind] at hok
    dsimp only at hok
    by_cases hstat : t.status = TenderStatus.OFFERED
    · rw [if_neg (by simp [hstat])] at hok
      rw [Except.ok.injEq] at hok
      subst hok
      intro x hx hid
      rcases mem_updateTenderById hx with ⟨y, _, hxy⟩
      by_cases hyid : y.id = tid
      · rw [hxy, if_pos hyid]
      · rw [hxy, if_neg hyid] at hid
        exact absurd hid hyid
    · rw [if_pos hstat] at hok
      exact absurd hok (by simp)
  · intro db now tid r u t db' hfind hok
    unfold cancelTender at hok
    rw [hfind] at hok
    dsimp only at hok
    by_cases hterm : t.status = TenderStatus.CANCELLED ∨ t.status = TenderStatus.EXPIRED
    · rw [if_pos hterm] at hok
      exact absurd hok (by simp)
    · rw [if_neg hterm] at hok
      rw [Except.ok.injEq] at hok
      subst hok
      intro x hx hid
      rcases mem_updateTenderById hx with ⟨y, _, hxy⟩
      by_cases hyid : y.id = tid
      · rw [hxy, if_pos hyid]
      · rw [hxy, if_neg hyid] at hid
        exact absurd hid hyid

/-- Claim C5 counterexample: accepting T2 in `twoTenderDB`
cascade-cancels T1, and T1's audit trail afterwards is the single fresh
AUTO_CANCELLED entry: its original OFFERED entry has been removed, so
the new trail is not the old trail plus one appended entry. -/
theorem C5_counterexample :
    (twoTenderDB.tenders.get ⟨0, by decide⟩).auditTrail.map (fun e => e.action) =
      ["OFFERED"] ∧
    ((runTx (acceptTender twoTenderDB 50 "T2" "C2" opsUser) twoTenderDB).tenders.get
        ⟨0, by decide⟩).auditTrail.map (fun e => e.action) = ["AUTO_CANCELLED"] :=
  ⟨by decide, by decide⟩

/-- Claim C5 witness: the amended theorem's accept branch applied to
`twoTenderDB`: T2's trail after acceptance is its old trail plus exactly
the ACCEPTED entry. -/
theorem C5_audit_trail_behavior_witness :
    ((runTx (acceptTender twoTenderDB 50 "T2" "C2" opsUser) twoTenderDB).tenders.get
        ⟨1, by decide⟩).auditTrail =
      tenderT2off.auditTrail ++ [acceptedEntry 50 "U1"] := by
  have H := C5_audit_trail_behavior.1 twoTenderDB 50 "T2" "C2" opsUser tenderT2off
    (runTx (acceptTender twoTenderDB 50 "T2" "C2" opsUser) twoTenderDB)
    (by decide) (by rfl)
  exact H _ (List.get_mem _ _ _) (by decide)

/-- Claim C10: a successful dispatch-offer creation increments the
target driver's `completedLoads` by one at creation time; a subsequent
accept response increments it again (each increment is computed from the
driver row current at that moment, so the pair amounts to plus two); a
reject response leaves every driver's `completedLoads` untouched, never
reverting the creation-time increment. -/
theorem C10_completedLoads :
    (∀ (db : DB) (now : Nat) (shipmentId driverId dispatchType newId : String)
       (u : UserCtx) (shipment : ShipmentEntity) (driver : DriverEntity),
       db.shipments.find? (fun s => s.id == shipmentId && s.tenantId == u.companyId) =
         some shipment →
       (shipment.status = ShipmentStatus.BOOKED ∨
        shipment.status = ShipmentStatus.TENDERED) →
       (db.tenders.find? fun t =>
         t.shipmentId == shipmentId && t.status == TenderStatus.ACCEPTED).isSome = true →
       db.drivers.find? (fun x => x.id == driverId) = some driver →
       db.assignments.find? (fun a =>
         a.shipmentId == shipmentId && a.driverId == driverId &&
         (a.status == DispatchStatus.DISPATCHED ||
           a.status == DispatchStatus.CONFIRMED)) = none →
       driver.isActive = true → isDriverAvailable driver now = true →
       ∀ x ∈ (runTx (assignDriver db now shipmentId driverId dispatchType newId u)
           db).drivers,
         x.id = driverId → x.completedLoads = driver.completedLoads + 1) ∧
    (∀ (db : DB) (now : Nat) (did aid : String) (u : UserCtx)
       (a : DispatchAssignmentEntity) (driver : DriverEntity),
       db.assignments.find? (fun x => x.id == aid && x.driverId == did) = some a →
       a.status = DispatchStatus.DISPATCHED →
       db.drivers.find? (fun x => x.id == did) = some driver →
       ∀ x ∈ (runTx (processDriverResponse db now did "1" aid u) db).drivers,
         x.id = did → x.completedLoads = driver.completedLoads + 1) ∧
    (∀ (db : DB) (now : Nat) (did aid : String) (u : UserCtx)
       (a : DispatchAssignmentEntity) (driver : DriverEntity),
       db.assignments.find? (fun x => x.id == aid && x.driverId == did) = some a →
       a.status = DispatchStatus.DISPATCHED →
       db.drivers.find? (fun x => x.id == did) = some driver →
       (runTx (processDriverResponse db now did "2" aid u) db).drivers.map
           (fun d => d.completedLoads) =
         db.drivers.map (fun d => d.completedLoads)) := by
  refine ⟨?_, ?_, ?_⟩
  · intro db now shipmentId driverId dispatchType newId u shipment driver
      hs hst hat hd hnodup hact hav
    have hstn : ¬(shipment.status ≠ ShipmentStatus.BOOKED ∧
        shipment.status ≠ ShipmentStatus.TENDERED) := by
      rcases hst with h | h <;> simp [h]
    have hatn : ¬((db.tenders.find? fun t =>
        t.shipmentId == shipmentId && t.status == TenderStatus.ACCEPTED).isNone = true) := by
      rw [Option.isNone_iff_eq_none]
      intro hnone
      simp [hnone] at hat
    have hdupn : ¬((db.assignments.find? (fun a =>
        a.shipmentId == shipmentId && a.driverId == driverId &&
        (a.status == DispatchStatus.DISPATCHED ||
          a.status == DispatchStatus.CONFIRMED))).isSome = true) := by
      simp [hnodup]
    unfold assignDriver
    rw [hs]
    dsimp only
    rw [if_neg hstn, if_neg hatn, hd]
    dsimp only
    rw [if_neg (by simp [hact]), if_neg (by simp [hav]), if_neg hdupn]
    simp only [runTx]
    intro x hx hid
    rcases mem_updateDriverById hx with ⟨y, _, hxy⟩
    by_cases hyid : y.id = driverId
    · rw [hxy, if_pos hyid]
    · rw [hxy, if_neg hyid] at hid
      exact absurd hid hyid
  · intro db now did aid u a driver hfa ha hfd
    unfold processDriverResponse
    rw [hfa]
    dsimp only
    rw [if_neg (by simp [ha]), hfd]
    dsimp only
    rw [if_pos rfl]
    simp only [runTx]
    intro x hx hid
    rcases mem_updateDriverById hx with ⟨y, _, hxy⟩
    by_cases hyid : y.id = did
    · rw [hxy, if_pos hyid]
    · rw [hxy, if_neg hyid] at hid
      exact absurd hid hyid
  · intro db now did aid u a driver hfa ha hfd
    unfold processDriverResponse
    rw [hfa]
    dsimp only
    rw [if_neg (by simp [ha]), hfd]
    dsimp only
    rw [if_neg (by decide), if_pos rfl]
    simp only [runTx]
    unfold updateDriverById
    rw [List.map_map]
    apply List.map_congr_left
    intro d _
    by_cases h : d.id = did <;> simp [h]

/-- Claim C10 witness: starting from `readyDispatchDB` (driver counter
5), offer creation raises the counter to 6; an accept response on the
resulting store raises it to 7, while a reject response on the same
store leaves it at 6. -/
theorem C10_completedLoads_witness :
    (afterAssignDB.drivers.get ⟨0, by decide⟩).completedLoads = 6 ∧
    ((runTx (processDriverResponse afterAssignDB 60 "D1" "1" "A1" opsUser)
        afterAssignDB).drivers.get ⟨0, by decide⟩).completedLoads = 7 ∧
    (runTx (processDriverResponse afterAssignDB 60 "D1" "2" "A1" opsUser)
        afterAssignDB).drivers.map (fun d => d.completedLoads) = [6] := by
  refine ⟨?_, ?_, ?_⟩
  · have H := C10_completedLoads.1 readyDispatchDB 50 "S1" "D1" "PRIMARY" "A1" opsUser
      { id := "S1", tenantId := "TEN1", status := ShipmentStatus.BOOKED,
        carrierId := some "C1" }
      driverD1idle (by decide) (Or.inl (by decide)) (by decide) (by decide) (by decide)
      (by decide) (by decide)
    exact H _ (List.get_mem _ _ _) (by decide)
  · have H := C10_completedLoads.2.1 afterAssignDB 60 "D1" "A1" opsUser
      assignA1created driverD1onload (by decide) (by decide) (by decide)
    exact H _ (List.get_mem _ _ _) (by decide)
  · have H := C10_completedLoads.2.2 afterAssignDB 60 "D1" "A1" opsUser
      assignA1created driverD1onload (by decide) (by decide) (by decide)
    rw [H]
    decide

end TMS
